import Mathlib

/-!
# Verification of the XIAO ESP32S3 communication GUI

Shallow embedding, in Lean 4, of the behaviourally relevant parts of
`src/gui/esp32s3_gui.py` (the tkinter GUI), `src/gui/ble_scanner.py` and
`src/gui/ble_connect_test.py` (the two standalone diagnostic scripts).

The program is a thin orchestration layer: GUI callbacks delegate to the
`pyserial` and `bleak` libraries, marshal results back onto the GUI thread
via `root.after`, and keep only ephemeral UI state (connection flags, the
scanned device list, two message logs).  The embedding below therefore
consists of

* pure functions translating the data-manipulating callbacks
  (`send_serial_command`, `send_ble_message`, `_update_device_list`,
  `_connect_ble`, `_ble_notification_handler`, `add_ble_message`,
  `save_messages`);
* an operational model of the `AsyncioManager` bridge (a single background
  event loop consuming a FIFO queue of submitted coroutines, the documented
  semantics of `asyncio.run_coroutine_threadsafe` /
  `loop.call_soon_threadsafe`);
* structural tables, read off line by line from the source, recording which
  asynchronous mechanism each GUI callback uses, which timeout each
  cross-thread call passes to `future.result`, which side effects each
  worker-thread callback performs and whether each one is wrapped in
  `self.root.after(0, ...)`, and what each `except` block does.
-/

namespace ESP32

/-- BLE service UUID expected by the GUI (`self.SERVICE_UUID`,
`esp32s3_gui.py` line 93; also `ble_scanner.py` line 21 and
`ble_connect_test.py` line 13). -/
def SERVICE_UUID : String := "12345678-1234-1234-1234-123456789abc"

/-- BLE characteristic UUID expected by the GUI (`self.CHARACTERISTIC_UUID`,
`esp32s3_gui.py` line 94; also `ble_connect_test.py` line 14). -/
def CHARACTERISTIC_UUID : String := "87654321-4321-4321-4321-cba987654321"

/-! ### Python string primitives

The callbacks use `str.upper()`, `str.lower()`, `str.strip()` and the
substring test `in`.  They are modelled character-wise so that every
definition evaluates inside the kernel. -/

/-- Python `s.upper()` (ASCII case mapping, which is all the source applies
it to). -/
def strUpper (s : String) : String := String.mk (s.data.map Char.toUpper)

/-- Python `s.lower()`. -/
def strLower (s : String) : String := String.mk (s.data.map Char.toLower)

/-- Python `pat in s`: `pat` occurs as a contiguous substring of `s`. -/
def strContains (s pat : String) : Bool :=
  s.data.tails.any (fun t => pat.data.isPrefixOf t)

/-- Python `s.strip()`: surrounding whitespace removed. -/
def strStrip (s : String) : String :=
  String.mk
    (((s.data.dropWhile Char.isWhitespace).reverse.dropWhile
        Char.isWhitespace).reverse)

/-- A scanned BLE advertisement as used by the GUI: `device.name` may be
`None` (rendered as "Unknown") and `device.address` is a string. -/
structure BLEDevice where
  name : Option String
  address : String
  deriving Repr, DecidableEq

/-! ## Sending commands (`send_serial_command`, `send_serial_command_direct`,
`send_ble_message`, lines 354-371 and 715-724) -/

/-- Outcome of one invocation of a send callback: the payload handed to the
transport (if any), the contents of the entry field afterwards, and whether
a "Not Connected" warning dialog was shown. -/
structure SendOutcome where
  sent : Option String
  field : String
  warning : Bool
  deriving Repr, DecidableEq

/-- `send_serial_command` (lines 354-359) composed with
`send_serial_command_direct` (lines 361-371): the entry text is stripped; a
non-empty command is handed to the direct sender (which shows a warning and
sends nothing when the serial port is not connected) and the entry field is
cleared.  The direct sender frames the command as `command ++ "\n"` on the
wire; `sent` records the command argument it receives. -/
def send_serial_command (is_connected_serial : Bool) (field : String) :
    SendOutcome :=
  let command := strStrip field
  if command = "" then
    { sent := none, field := field, warning := false }
  else if is_connected_serial then
    { sent := some command, field := "", warning := false }
  else
    { sent := none, field := "", warning := true }

/-- Wire framing applied by `send_serial_command_direct` (line 368):
`self.serial_connection.write(f"{command}\n".encode())`. -/
def serialWireFrame (command : String) : String := command ++ "\n"

/-- `send_ble_message` (lines 715-724): the connection flag is checked first
(warning dialog and early return when not connected, even for an empty
field); otherwise the entry text is stripped and, when non-empty, handed to
the background send thread and the entry field is cleared. -/
def send_ble_message (is_connected_ble : Bool) (field : String) :
    SendOutcome :=
  if ¬ is_connected_ble then
    { sent := none, field := field, warning := true }
  else
    let message := strStrip field
    if message = "" then
      { sent := none, field := field, warning := false }
    else
      { sent := some message, field := "", warning := false }

/-! ## The `AsyncioManager` bridge (lines 43-77) and which callbacks use it -/

/-- The five BLE operations reachable from GUI callbacks. -/
inductive BleOp
  | scan
  | inspectDevice
  | connect
  | send
  | disconnect
  deriving Repr, DecidableEq, Fintype

/-- How a GUI callback reaches asyncio: through the shared
`AsyncioManager` loop (`self.asyncio_manager.run_async(...)` followed by
`future.result(timeout)`), or through a freshly created private event loop
(`asyncio.new_event_loop()` + `run_until_complete`). -/
inductive AsyncMechanism
  | sharedBridge
  | privateNewLoop
  deriving Repr, DecidableEq

/-- Mechanism each BLE operation uses, read off from the source:
`_scan_ble_async` line 394, `_inspect_ble_async` line 470,
`_connect_ble_async` line 616 and `_send_ble_async` line 734 all call
`self.asyncio_manager.run_async`; `_disconnect_ble_async` (lines 684-695)
instead calls `asyncio.new_event_loop()` and `loop.run_until_complete`. -/
def bleOpMechanism : BleOp → AsyncMechanism
  | .scan => .sharedBridge
  | .inspectDevice => .sharedBridge
  | .connect => .sharedBridge
  | .send => .sharedBridge
  | .disconnect => .privateNewLoop

/-- Shape of one cross-thread call through the bridge: whether it submits
to the shared loop, whether it blocks on the returned future, and the
timeout (in seconds) passed to `future.result`. -/
structure CrossThreadCall where
  submitsToSharedLoop : Bool
  blocksOnFuture : Bool
  timeoutSeconds : Nat
  deriving Repr, DecidableEq

/-- The four wrappers that go through `AsyncioManager.run_async`, with the
timeout each passes to `future.result`: `_scan_ble_async` line 395
(`timeout=10`), `_inspect_ble_async` line 471 (`timeout=10`),
`_connect_ble_async` line 617 (`timeout=10`), `_send_ble_async` line 735
(`timeout=5`). -/
def crossThreadCall : BleOp → Option CrossThreadCall
  | .scan => some { submitsToSharedLoop := true, blocksOnFuture := true, timeoutSeconds := 10 }
  | .inspectDevice => some { submitsToSharedLoop := true, blocksOnFuture := true, timeoutSeconds := 10 }
  | .connect => some { submitsToSharedLoop := true, blocksOnFuture := true, timeoutSeconds := 10 }
  | .send => some { submitsToSharedLoop := true, blocksOnFuture := true, timeoutSeconds := 5 }
  | .disconnect => none

/-- Steps taken by `AsyncioManager._start_event_loop`'s thread body
`run_loop` (lines 54-57): create a fresh loop, install it, run it forever.
`__init__` (lines 46-50) calls `_start_event_loop` exactly once. -/
inductive LoopSetupStep
  | newEventLoop
  | setEventLoop
  | runForever
  deriving Repr, DecidableEq

/-- Body of `run_loop`, in order (lines 55-57). -/
def startEventLoopBody : List LoopSetupStep :=
  [.newEventLoop, .setEventLoop, .runForever]

/-- Number of times `AsyncioManager.__init__` starts an event loop
(line 50: the single `self._start_event_loop()` call). -/
def loopStartsAtConstruction : Nat := 1

/-- Operational model of the bridge queue.  `run_async` calls
`asyncio.run_coroutine_threadsafe(coro, self.loop)`, which enqueues the
coroutine on the loop's FIFO ready queue via `call_soon_threadsafe`; the
single loop thread dequeues and runs entries in order.  `submitted` is the
full submission history, `pending` the queue, `completed` the history of
finished units. -/
structure BridgeState where
  submitted : List Nat
  pending : List Nat
  completed : List Nat
  deriving Repr, DecidableEq

/-- One transition of the bridge: a caller submits a unit of work, or the
loop thread completes the unit at the head of the queue. -/
inductive BridgeStep : BridgeState → BridgeState → Prop
  | submit (s : BridgeState) (j : Nat) :
      BridgeStep s ⟨s.submitted ++ [j], s.pending ++ [j], s.completed⟩
  | process (s : BridgeState) (j : Nat) (rest : List Nat)
      (h : s.pending = j :: rest) :
      BridgeStep s ⟨s.submitted, rest, s.completed ++ [j]⟩

/-- Bridge states reachable from the empty initial state. -/
inductive BridgeReachable : BridgeState → Prop
  | init : BridgeReachable ⟨[], [], []⟩
  | step {s s' : BridgeState} :
      BridgeReachable s → BridgeStep s s' → BridgeReachable s'

/-! ## Reactions posted back to the GUI and the `except` blocks (C3) -/

/-- A user-visible reaction the program can perform: an error dialog
(`messagebox.showerror`), a warning dialog (`messagebox.showwarning`), a
status-bar update (`self.update_status`), a console print, or an append to
one of the message displays.  The program has no other failure response:
no retry, reconnect, or recovery action appears in any `except` block. -/
inductive Reaction
  | showError (title body : String)
  | showWarning (title body : String)
  | setStatus (msg : String)
  | consolePrint (msg : String)
  | appendDisplay (widget body : String)
  deriving Repr, DecidableEq

/-- Whether a reaction is an error dialog. -/
def Reaction.isErrorDialog : Reaction → Bool
  | .showError _ _ => true
  | _ => false

/-- `connect_serial`'s `except` block (lines 324-326): an error dialog
naming the port, then a status-bar update. -/
def connectSerialOnError (port e : String) : List Reaction :=
  [.showError "Connection Error" ("Failed to connect to " ++ port ++ ":\n" ++ e),
   .setStatus "Connection failed"]

/-- `send_serial_command_direct`'s `except` block (lines 370-371). -/
def serialSendOnError (e : String) : List Reaction :=
  [.showError "Send Error" ("Failed to send command:\n" ++ e)]

/-- `_scan_ble_async`'s `except` block (lines 397-398): only a status-bar
update, no dialog. -/
def scanBleOnError (e : String) : List Reaction :=
  [.setStatus ("BLE scan error: " ++ e)]

/-- `_inspect_ble_async`'s `except` block (lines 473-474). -/
def inspectBleOnError (e : String) : List Reaction :=
  [.showError "Inspection Error" ("Failed to inspect device:\n" ++ e)]

/-- `_connect_ble_async`'s `except` block (lines 618-619): only a
status-bar update (library errors raised inside the `_connect_ble`
coroutine are caught there and shown as dialogs; this outer handler sees
future timeouts and submission failures). -/
def connectBleWrapperOnError (e : String) : List Reaction :=
  [.setStatus ("BLE connection error: " ++ e)]

/-- `_connect_ble`'s own `except` block (lines 663-669): best-effort
disconnect, then an error dialog naming the device. -/
def connectBleCoroOnError (deviceName e : String) : List Reaction :=
  [.showError "BLE Error"
    ("Failed to connect to '" ++ deviceName ++ "':\n" ++ e)]

/-- `_send_ble_async`'s `except` block (lines 737-738). -/
def sendBleOnError (e : String) : List Reaction :=
  [.showError "BLE Send Error" ("Failed to send message:\n" ++ e)]

/-- `_disconnect_ble_async`'s `except` block (lines 691-692): a console
print only. -/
def disconnectBleOnError (e : String) : List Reaction :=
  [.consolePrint ("BLE disconnect error: " ++ e)]

/-- `save_messages`'s `except` block (lines 814-815). -/
def saveMessagesOnError (e : String) : List Reaction :=
  [.showError "Save Error" ("Failed to save messages:\n" ++ e)]

/-- `_ble_notification_handler`'s `except` block (lines 712-713): a console
print only. -/
def notifyHandlerOnError (e : String) : List Reaction :=
  [.consolePrint ("BLE notification error: " ++ e)]

/-- The operations that delegate to a library call, as enumerated by the
claim: serial connect/send, BLE scan/inspect/connect/send, file save (plus
BLE disconnect, whose failure path also exists in the source). -/
inductive LibCallOp
  | serialConnect
  | serialSend
  | bleScan
  | bleInspect
  | bleConnect
  | bleSend
  | bleDisconnect
  | fileSave
  deriving Repr, DecidableEq, Fintype

/-- Failure reactions of each operation's `except` block, instantiated at a
given error text (for `serialConnect` the port name and for `bleConnect`
the device name are folded into the same text parameter). -/
def failureReactions : LibCallOp → String → List Reaction
  | .serialConnect, e => connectSerialOnError "COM9" e
  | .serialSend, e => serialSendOnError e
  | .bleScan, e => scanBleOnError e
  | .bleInspect, e => inspectBleOnError e
  | .bleConnect, e => connectBleCoroOnError "XIAO-ESP32S3-Test" e
  | .bleSend, e => sendBleOnError e
  | .bleDisconnect, e => disconnectBleOnError e
  | .fileSave, e => saveMessagesOnError e

/-! ## What each bridge wrapper posts back to the GUI thread -/

/-- A callable posted to the GUI thread's event queue with
`self.root.after(0, ...)` by one of the bridge wrappers once
`future.result` returns or raises: the device-list rebuild carrying the
scan result (line 396), the device-inspector window (line 472), or a
`Reaction` (a dialog, status update or log append). -/
inductive GuiPost
  | runDeviceListUpdate (devices : List BLEDevice)
  | runShowDeviceInfo (deviceName : String)
  | react (r : Reaction)
  deriving Repr, DecidableEq

/-- `_scan_ble_async` (lines 386-398): blocking on the future yields
either the scan result — posted to the GUI queue as
`_update_device_list(devices)` (line 396) — or an exception, including the
`future.result(timeout=10)` timeout, posted as the except block's status
message (line 398). -/
def scanBleAsyncPosts (r : Except String (List BLEDevice)) :
    List GuiPost :=
  match r with
  | .ok devices => [GuiPost.runDeviceListUpdate devices]
  | .error e => (scanBleOnError e).map GuiPost.react

/-- `_inspect_ble_async` (lines 463-474): the inspection result is posted
as `_show_device_info(device, services_info)` (line 472; the services
report payload is elided here, the device name kept), an exception —
including the future timeout — as the except block's error dialog
(line 474). -/
def inspectBleAsyncPosts (deviceName : String) (r : Except String Unit) :
    List GuiPost :=
  match r with
  | .ok _ => [GuiPost.runShowDeviceInfo deviceName]
  | .error e => (inspectBleOnError e).map GuiPost.react

/-- `_send_ble_async` (lines 726-738): a completed send is posted as the
sent-message append to the BLE log (line 736), an exception — including
the `future.result(timeout=5)` timeout — as the except block's send-error
dialog (line 738). -/
def sendBleAsyncPosts (message : String) (r : Except String Unit) :
    List GuiPost :=
  match r with
  | .ok _ => [GuiPost.react (Reaction.appendDisplay "ble_messages"
      ("[GUI] Sent: " ++ message))]
  | .error e => (sendBleOnError e).map GuiPost.react

/-! ## Worker-thread callbacks and `root.after` routing (C4) -/

/-- Kind of a side effect performed by a worker-thread callback. -/
inductive EffectKind
  | displayUpdate
  | statusUpdate
  | dialog
  | stateMutation
  | consoleLog
  deriving Repr, DecidableEq

/-- One side-effect site in a worker-thread callback: its kind and whether
the site is wrapped in `self.root.after(0, ...)` (i.e. routed onto the GUI
thread's event queue) or executed directly on the worker thread. -/
structure WorkerEffect where
  kind : EffectKind
  viaAfter : Bool
  deriving Repr, DecidableEq

/-- The callbacks that run on a thread other than the GUI thread: the
serial reader thread, the four BLE wrapper threads, the `_connect_ble` and
`_disconnect_ble_async` bodies, and the notification handler invoked by the
bleak event loop. -/
inductive WorkerCallback
  | readSerialMessages
  | scanBleAsync
  | inspectBleAsync
  | connectBleAsync
  | connectBleCoro
  | sendBleAsync
  | disconnectBleAsync
  | bleNotifyHandler
  deriving Repr, DecidableEq, Fintype

/-- Side-effect sites of each worker-thread callback, in source order,
each tagged with whether it is wrapped in `self.root.after(0, ...)`:

* `read_serial_messages` (341-352): received line appended via `after`
  (348), read error shown in the status bar via `after` (351);
* `_scan_ble_async` (386-398): missing-manager status via `after` (389),
  `_update_device_list` via `after` (396), scan error status via `after`
  (398);
* `_inspect_ble_async` (463-474): missing-manager status via `after` (466),
  `_show_device_info` via `after` (472), error dialog via `after` (474);
* `_connect_ble_async` (608-619): missing-manager status via `after` (611),
  connection error status via `after` (619);
* `_connect_ble` (621-669): `self.ble_client = BleakClient(...)` assigned
  directly on the worker thread (624), two error dialogs via `after`
  (643, 651), `self.is_connected_ble = True` assigned directly on the
  worker thread (660), `_ble_connected` via `after` (661), exception dialog
  via `after` (669);
* `_send_ble_async` (726-738): missing-manager dialog via `after` (729),
  sent-message append via `after` (736), send error dialog via `after`
  (738);
* `_disconnect_ble_async` (684-695): disconnect error printed directly to
  the console (692), `_ble_disconnected` via `after` (695);
* `_ble_notification_handler` (707-713): received message appended via
  `after` (711), decode error printed directly to the console (713). -/
def workerEffects : WorkerCallback → List WorkerEffect
  | .readSerialMessages =>
      [⟨.displayUpdate, true⟩, ⟨.statusUpdate, true⟩]
  | .scanBleAsync =>
      [⟨.statusUpdate, true⟩, ⟨.displayUpdate, true⟩, ⟨.statusUpdate, true⟩]
  | .inspectBleAsync =>
      [⟨.statusUpdate, true⟩, ⟨.displayUpdate, true⟩, ⟨.dialog, true⟩]
  | .connectBleAsync =>
      [⟨.statusUpdate, true⟩, ⟨.statusUpdate, true⟩]
  | .connectBleCoro =>
      [⟨.stateMutation, false⟩, ⟨.dialog, true⟩, ⟨.dialog, true⟩,
       ⟨.stateMutation, false⟩, ⟨.displayUpdate, true⟩, ⟨.dialog, true⟩]
  | .sendBleAsync =>
      [⟨.dialog, true⟩, ⟨.displayUpdate, true⟩, ⟨.dialog, true⟩]
  | .disconnectBleAsync =>
      [⟨.consoleLog, false⟩, ⟨.displayUpdate, true⟩]
  | .bleNotifyHandler =>
      [⟨.displayUpdate, true⟩, ⟨.consoleLog, false⟩]

/-! ## GATT model and `_connect_ble` (lines 621-669) -/

/-- A GATT characteristic as seen through `bleak`: only its UUID matters to
the connection logic. -/
structure GattCharacteristic where
  uuid : String
  deriving Repr, DecidableEq

/-- A GATT service: its UUID and its characteristics. -/
structure GattService where
  uuid : String
  characteristics : List GattCharacteristic
  deriving Repr, DecidableEq

/-- The service-discovery loop of `_connect_ble` (lines 632-639): services
are scanned in order; the first one whose UUID matches `SERVICE_UUID`
(case-insensitively) sets `service_found` and the loop `break`s after
scanning only that service's characteristics for `CHARACTERISTIC_UUID`. -/
def findTargetService (services : List GattService) : Option GattService :=
  services.find? (fun s => strLower s.uuid == strLower SERVICE_UUID)

/-- Whether the matched service contains the target characteristic
(lines 635-638). -/
def serviceHasTargetChar (s : GattService) : Bool :=
  s.characteristics.any
    (fun c => strLower c.uuid == strLower CHARACTERISTIC_UUID)

/-- Result of one run of the `_connect_ble` coroutine: the final value of
`self.is_connected_ble`, whether `client.disconnect()` was awaited (or at
least attempted in the exception path), whether
`start_notify(CHARACTERISTIC_UUID, _ble_notification_handler)` completed,
and the reactions posted to the GUI thread via `root.after`. -/
structure ConnectBleResult where
  is_connected_ble : Bool
  disconnectAttempted : Bool
  subscribed : Bool
  reactions : List Reaction
  deriving Repr, DecidableEq

/-- `_connect_ble` (lines 621-669) as a function of the library's
behaviour: `connectOk` is whether `await self.ble_client.connect()`
returns normally, `services` is what `self.ble_client.services` then
exposes, `notifyOk` is whether `await start_notify(...)` returns normally,
and `errText` is the text of the exception raised in the failing case.
The flag `self.is_connected_ble` starts `False` (set in `__init__`, line
89, and only ever set `True` at line 660).  Dialog bodies elide the
source's second and third f-string lines (fixed advice text naming the
expected UUIDs). -/
def connectBle (deviceName : String) (connectOk : Bool)
    (services : List GattService) (notifyOk : Bool) (errText : String) :
    ConnectBleResult :=
  if ¬ connectOk then
    { is_connected_ble := false, disconnectAttempted := true,
      subscribed := false,
      reactions := connectBleCoroOnError deviceName errText }
  else
    match findTargetService services with
    | none =>
        { is_connected_ble := false, disconnectAttempted := true,
          subscribed := false,
          reactions := [.showError "BLE Error"
            ("Device '" ++ deviceName ++ "' does not have the required service.")] }
    | some svc =>
        if serviceHasTargetChar svc then
          if notifyOk then
            { is_connected_ble := true, disconnectAttempted := false,
              subscribed := true,
              reactions := [.appendDisplay "ble_connected" deviceName] }
          else
            { is_connected_ble := false, disconnectAttempted := true,
              subscribed := false,
              reactions := connectBleCoroOnError deviceName errText }
        else
          { is_connected_ble := false, disconnectAttempted := true,
            subscribed := false,
            reactions := [.showError "BLE Error"
              ("Device '" ++ deviceName ++ "' does not have the required characteristic.")] }

/-! ## Notifications and the message logs (lines 707-713, 764-781) -/

/-- Message classification used by `add_serial_message` / `add_ble_message`
(their `msg_type` argument). -/
inductive MsgType
  | sent
  | received
  | system
  deriving Repr, DecidableEq

/-- The marker prepended per message type (lines 768-773; the source file
stores these arrow/bullet glyphs in a mangled encoding, rendered here by
their intent). -/
def msgMark : MsgType → String
  | .sent => "→ "
  | .received => "← "
  | .system => "● "

/-- The full line appended by `add_ble_message` / `add_serial_message`
(line 775): `f"{timestamp} {prefix}{message}\n"` when timestamps are on,
`f"{prefix}{message}\n"` otherwise. -/
def formatLogLine (timestamp : Option String) (t : MsgType)
    (message : String) : String :=
  match timestamp with
  | some ts => ts ++ " " ++ msgMark t ++ message ++ "\n"
  | none => msgMark t ++ message ++ "\n"

/-- `add_ble_message` (lines 764-781) modelled on the log contents: the
formatted line is inserted at the end of the BLE messages widget. -/
def add_ble_message (log : String) (timestamp : Option String)
    (t : MsgType) (message : String) : String :=
  log ++ formatLogLine timestamp t message

/-- `_ble_notification_handler` (lines 707-713): the notification payload
is decoded (modelled as already being text), stripped, and the string
`f"[BLE] {message}"` is handed to `add_ble_message(…, "received")` through
`root.after`. -/
def bleNotifyHandlerMessage (data : String) : String :=
  "[BLE] " ++ strStrip data

/-- The new BLE log contents after a notification carrying `data` arrives
(handler composed with `add_ble_message`). -/
def logAfterNotification (log : String) (timestamp : Option String)
    (data : String) : String :=
  add_ble_message log timestamp .received (bleNotifyHandlerMessage data)

/-! ## The device listbox (`_update_device_list`, lines 405-444) -/

/-- The listbox label of a device (line 415):
`f"{name} ({address})"` with `name = device.name or "Unknown"`. -/
def displayText (d : BLEDevice) : String :=
  d.name.getD "Unknown" ++ " (" ++ d.address ++ ")"

/-- The classification at line 417:
`"XIAO" in name.upper() or "ESP32" in name.upper()`. -/
def isTargetDevice (d : BLEDevice) : Bool :=
  let name := strUpper (d.name.getD "Unknown")
  strContains name "XIAO" || strContains name "ESP32"

/-- One row of the device listbox: a highlighted ESP32/XIAO row, the
separator row, or an ordinary device row.  (The source prepends marker
glyphs, stored in a mangled encoding, to the two device-row labels; the
separator row reads exactly "--- Other Devices ---".) -/
inductive DeviceRow
  | target (d : BLEDevice)
  | separator
  | other (d : BLEDevice)
  deriving Repr, DecidableEq

/-- The `esp32_devices` group built by the loop at lines 412-420: the
scanned devices whose (upper-cased) name contains "XIAO" or "ESP32", in
scan order. -/
def espDevices (devices : List BLEDevice) : List BLEDevice :=
  devices.filter isTargetDevice

/-- The `other_devices` group of the same loop: the remaining devices, in
scan order. -/
def otherDevices (devices : List BLEDevice) : List BLEDevice :=
  devices.filter (fun d => ! isTargetDevice d)

/-- Whether the separator row is inserted (line 433: only when both groups
are non-empty). -/
def hasSeparator (devices : List BLEDevice) : Bool :=
  ! (espDevices devices).isEmpty && ! (otherDevices devices).isEmpty

/-- The listbox index at which the `other_devices` rows start: after the
ESP32 rows and, when present, the separator row (the `listbox_index += 1`
at line 435 that skips the separator in the mapping). -/
def mapBase (devices : List BLEDevice) : Nat :=
  (espDevices devices).length + (if hasSeparator devices then 1 else 0)

/-- The listbox contents rebuilt by `_update_device_list` (lines 405-444):
ESP32 rows first, then the separator when both groups are non-empty, then
the other rows. -/
def deviceRows (devices : List BLEDevice) : List DeviceRow :=
  (espDevices devices).map DeviceRow.target
    ++ (if hasSeparator devices then [DeviceRow.separator] else [])
    ++ (otherDevices devices).map DeviceRow.other

/-- `self.device_index_map`, rebuilt from scratch by the same function
(lines 423-441), as an association list: each ESP32 device at its row
index, and each other device at its row index past `mapBase` (the
separator's index, when present, is skipped and never mapped). -/
def device_index_map (devices : List BLEDevice) :
    List (Nat × BLEDevice) :=
  (espDevices devices).enum
    ++ (otherDevices devices).enum.map
        (fun p => (p.1 + mapBase devices, p.2))

/-- `_update_device_list` (lines 405-444): the rebuilt listbox rows and
index map. -/
def update_device_list (devices : List BLEDevice) :
    List DeviceRow × List (Nat × BLEDevice) :=
  (deviceRows devices, device_index_map devices)

/-! ## `save_messages` (lines 791-815) and the state frame (C6) -/

/-- The ephemeral in-memory UI state of the application, as initialised in
`__init__` (lines 85-99) and `_update_device_list` (line 443): connection
flags, scanned device list, the two message logs and the status-bar
text. -/
structure GuiState where
  is_connected_serial : Bool
  is_connected_ble : Bool
  ble_devices : List BLEDevice
  serial_log : String
  ble_log : String
  status : String
  deriving Repr, DecidableEq

/-- `"=" * 50` and friends. -/
def repeatChar (c : Char) (n : Nat) : String := String.mk (List.replicate n c)

/-- The exact file contents written by `save_messages` (lines 799-811):
header, generation time, the serial log, and — when the BLE tab exists
(i.e. `bleak` imported, so `self.ble_messages` was created) — the BLE
log. -/
def saveFileContent (bleTab : Bool) (now serialLog bleLog : String) :
    String :=
  "XIAO ESP32S3 Communication Log\n" ++
  "Generated: " ++ now ++ "\n" ++
  repeatChar '=' 50 ++ "\n\n" ++
  "USB Serial Messages:\n" ++
  repeatChar '-' 20 ++ "\n" ++
  serialLog ++
  (if bleTab then
    "\nBLE Messages:\n" ++ repeatChar '-' 20 ++ "\n" ++ bleLog
   else "")

/-- A write to persistent storage: target path and contents. -/
structure FileWrite where
  path : String
  content : String
  deriving Repr, DecidableEq

/-- `save_messages` (lines 791-815): the file-save dialog returns either no
filename (user cancelled; nothing happens) or a path, in which case the
logs are written to that file and the status bar is updated; no other
state field is touched. -/
def save_messages (bleTab : Bool) (s : GuiState)
    (filename : Option String) (now : String) :
    GuiState × Option FileWrite :=
  match filename with
  | none => (s, none)
  | some fn =>
      ({ s with status := "Messages saved to " ++ fn },
       some ⟨fn, saveFileContent bleTab now s.serial_log s.ble_log⟩)

/-- Every operation reachable from a GUI control (buttons, entry bindings;
`setup_serial_tab`, `setup_ble_tab`, `setup_settings_tab`,
lines 131-276). -/
inductive GuiOp
  | refreshSerialPorts
  | toggleSerial
  | sendSerial
  | scanBleDevices
  | inspectBleDev
  | toggleBle
  | sendBle
  | saveMessagesOp
  | clearAllMessages
  | showAbout
  deriving Repr, DecidableEq, Fintype

/-- Which operations write to persistent storage.  Only `save_messages`
contains a file `open(..., "w")` (line 799); every other handler touches
only widgets, in-memory fields, or the serial/BLE transports. -/
def opWritesStorage : GuiOp → Bool
  | .saveMessagesOp => true
  | _ => false

/-! ## Inventory: tabs, transports and diagnostic scripts (C7) -/

/-- The two transports to the microcontroller. -/
inductive Transport
  | usbSerial
  | ble
  deriving Repr, DecidableEq

/-- The notebook tabs created by `setup_gui` (lines 112-129). -/
inductive GuiTab
  | usbSerialTab
  | bleCommunicationTab
  | settingsInfoTab
  deriving Repr, DecidableEq

/-- `setup_gui` (lines 112-129): the serial tab, the BLE tab when `bleak`
imported successfully, and the settings tab, in that order. -/
def setup_gui_tabs (bleakAvailable : Bool) : List GuiTab :=
  [GuiTab.usbSerialTab]
    ++ (if bleakAvailable then [GuiTab.bleCommunicationTab] else [])
    ++ [GuiTab.settingsInfoTab]

/-- The transport a tab talks to the microcontroller over (the settings
tab provides none). -/
def tabTransport : GuiTab → Option Transport
  | .usbSerialTab => some .usbSerial
  | .bleCommunicationTab => some .ble
  | .settingsInfoTab => none

/-- The standalone diagnostic scripts shipped next to the GUI:
`ble_scanner.py` (entry point `scan_for_devices` / `continuous_scan`) and
`ble_connect_test.py` (entry point `test_esp32_connection`). -/
inductive DiagnosticScript
  | bleScanner
  | bleConnectTest
  deriving Repr, DecidableEq

/-- The diagnostic scripts present in the repository. -/
def standaloneScripts : List DiagnosticScript :=
  [.bleScanner, .bleConnectTest]

/-- `ble_scanner.py` line 20. -/
def TARGET_NAME : String := "XIAO-ESP32S3-Test"

/-- `ble_scanner.py` line 52: the scanner's target test
`(TARGET_NAME.lower() in name.lower()) or ("esp32" in name.lower())`. -/
def scannerIsTarget (name : String) : Bool :=
  strContains (strLower name) (strLower TARGET_NAME)
    || strContains (strLower name) "esp32"

/-- `ble_connect_test.py` line 12: the tester's hard-coded peripheral
address. -/
def ESP32_ADDRESS : String := "B8:F8:62:FB:87:6D"

/-! # Theorems -/

/-- C10: for every user input to the serial or BLE send operations, the
input is stripped of surrounding whitespace before sending; if the
stripped input is empty nothing is sent and the input field is left
unchanged; and if the corresponding transport is not connected nothing is
sent and a warning dialog is shown instead. -/
theorem send_inputs_stripped_and_guarded (conn : Bool) (input : String) :
    (∀ m : String, (send_serial_command conn input).sent = some m →
        m = strStrip input ∧ m ≠ "") ∧
    (∀ m : String, (send_ble_message conn input).sent = some m →
        m = strStrip input ∧ m ≠ "") ∧
    (strStrip input = "" →
        (send_serial_command conn input).sent = none ∧
        (send_serial_command conn input).field = input ∧
        (send_ble_message conn input).sent = none ∧
        (send_ble_message conn input).field = input) ∧
    (conn = false → strStrip input ≠ "" →
        (send_serial_command conn input).sent = none ∧
        (send_serial_command conn input).warning = true ∧
        (send_ble_message conn input).sent = none ∧
        (send_ble_message conn input).warning = true) := by
  unfold send_serial_command send_ble_message
  rcases conn <;> by_cases h : strStrip input = "" <;> simp [h]

/-- Witness for `send_inputs_stripped_and_guarded` at a disconnected
transport and the input " hi ". -/
theorem send_inputs_stripped_and_guarded_witness :
    (send_serial_command false " hi ").sent = none ∧
    (send_serial_command false " hi ").warning = true ∧
    (send_ble_message false " hi ").sent = none ∧
    (send_ble_message false " hi ").warning = true := by
  have h := (send_inputs_stripped_and_guarded false " hi ").2.2.2 rfl
    (by decide)
  exact ⟨h.1, h.2.1, h.2.2.1, h.2.2.2⟩

/-- C2 counterexample: the cross-thread calls do not all use the same
fixed timeout — `_send_ble_async` blocks with `timeout=5` (line 735) while
`_scan_ble_async` blocks with `timeout=10` (line 395). -/
theorem cross_thread_timeouts_differ :
    crossThreadCall BleOp.send ≠ crossThreadCall BleOp.scan := by decide

/-- C2 (amended): a single dedicated background thread runs an asyncio
event loop created and started once at construction and run forever, and
every cross-thread call submits a coroutine to that loop and blocks on the
returned future with a fixed per-operation timeout — 10 seconds for scan,
inspect and connect, 5 seconds for send. -/
theorem asyncio_bridge_structure :
    startEventLoopBody =
      [LoopSetupStep.newEventLoop, LoopSetupStep.setEventLoop,
       LoopSetupStep.runForever] ∧
    loopStartsAtConstruction = 1 ∧
    (∀ op : BleOp, bleOpMechanism op = AsyncMechanism.sharedBridge →
        ∃ c : CrossThreadCall, crossThreadCall op = some c ∧
          c.submitsToSharedLoop = true ∧ c.blocksOnFuture = true) ∧
    (∀ op : BleOp, ∀ c : CrossThreadCall, crossThreadCall op = some c →
        c.timeoutSeconds = if op = BleOp.send then 5 else 10) := by
  refine ⟨rfl, rfl, ?_, ?_⟩
  · intro op _; cases op <;> simp [crossThreadCall, bleOpMechanism] at *
  · intro op c h; cases op <;> simp [crossThreadCall] at h <;> simp [← h]

/-- Witness for `asyncio_bridge_structure`: the send wrapper's timeout. -/
theorem asyncio_bridge_structure_witness :
    (CrossThreadCall.mk true true 5).timeoutSeconds =
      if BleOp.send = BleOp.send then 5 else 10 :=
  asyncio_bridge_structure.2.2.2 BleOp.send (CrossThreadCall.mk true true 5)
    rfl

/-- C1 counterexample: the BLE disconnect operation issued from the GUI
callback does not go through the `AsyncioManager` bridge —
`_disconnect_ble_async` (lines 684-695) creates its own fresh event loop
and calls `run_until_complete` on it. -/
theorem ble_disconnect_bypasses_bridge :
    bleOpMechanism BleOp.disconnect ≠ AsyncMechanism.sharedBridge := by
  decide

/-- Helper: in every reachable bridge state, the completed units followed
by the still-pending units are exactly the submission history. -/
theorem bridgeReachable_partition {s : BridgeState}
    (h : BridgeReachable s) :
    s.completed ++ s.pending = s.submitted := by
  induction h with
  | init => rfl
  | step _ hstep ih =>
      cases hstep with
      | submit j => simp only [← List.append_assoc, ih]
      | process j rest hpend =>
          rw [hpend] at ih
          simpa using ih

/-- C1 (amended): the bridge delivers every submitted unit of work exactly
once and in submission order — in every reachable state the completed
units form a prefix of the submission history, and each unit's completed
and pending occurrence counts add up to its submitted count; for each
unit the caller surfaces either its result or a timeout/error back to the
GUI thread — each wrapper posts a non-empty list of GUI-queue entries on
every outcome of `future.result`, carrying the result on success and the
except block's report on an exception, while the connect coroutine posts
at least one reaction on every one of its outcomes (its wrapper reports
future timeouts through `connectBleWrapperOnError`, line 619); and every
BLE operation issued from a GUI callback except disconnect goes through
this bridge (disconnect spins up a private event loop instead). -/
theorem bridge_delivers_in_order_and_ops_routed {s : BridgeState}
    (h : BridgeReachable s) :
    s.completed ++ s.pending = s.submitted ∧
    s.completed <+: s.submitted ∧
    (∀ j : Nat, s.completed.count j + s.pending.count j =
        s.submitted.count j) ∧
    (∀ op : BleOp, op ≠ BleOp.disconnect →
        bleOpMechanism op = AsyncMechanism.sharedBridge) ∧
    (∀ devices : List BLEDevice, ∀ name m e : String,
       ∀ rs : Except String (List BLEDevice), ∀ ru : Except String Unit,
      scanBleAsyncPosts rs ≠ [] ∧
      inspectBleAsyncPosts name ru ≠ [] ∧
      sendBleAsyncPosts m ru ≠ [] ∧
      scanBleAsyncPosts (Except.ok devices) =
        [GuiPost.runDeviceListUpdate devices] ∧
      scanBleAsyncPosts (Except.error e) =
        (scanBleOnError e).map GuiPost.react ∧
      inspectBleAsyncPosts name (Except.ok ()) =
        [GuiPost.runShowDeviceInfo name] ∧
      inspectBleAsyncPosts name (Except.error e) =
        (inspectBleOnError e).map GuiPost.react ∧
      sendBleAsyncPosts m (Except.ok ()) =
        [GuiPost.react (Reaction.appendDisplay "ble_messages"
          ("[GUI] Sent: " ++ m))] ∧
      sendBleAsyncPosts m (Except.error e) =
        (sendBleOnError e).map GuiPost.react ∧
      connectBleWrapperOnError e ≠ []) ∧
    (∀ name err : String, ∀ svcs : List GattService, ∀ cOk nOk : Bool,
        (connectBle name cOk svcs nOk err).reactions ≠ []) := by
  have hpart := bridgeReachable_partition h
  refine ⟨hpart, ⟨s.pending, hpart⟩, ?_, ?_, ?_, ?_⟩
  · intro j; rw [← hpart, List.count_append]
  · intro op hop; cases op <;> simp [bleOpMechanism] at *
  · intro devices name m e rs ru
    refine ⟨?_, ?_, ?_, rfl, rfl, rfl, rfl, rfl, rfl, ?_⟩
    · cases rs <;> simp [scanBleAsyncPosts, scanBleOnError]
    · cases ru <;> simp [inspectBleAsyncPosts, inspectBleOnError]
    · cases ru <;> simp [sendBleAsyncPosts, sendBleOnError]
    · simp [connectBleWrapperOnError]
  · intro name err svcs cOk nOk
    unfold connectBle
    cases cOk with
    | false => simp [connectBleCoroOnError]
    | true =>
        rcases findTargetService svcs with _ | svc
        · simp
        · by_cases hchar : serviceHasTargetChar svc = true
          · cases nOk <;> simp [hchar, connectBleCoroOnError]
          · simp only [Bool.not_eq_true] at hchar
            simp [hchar]

/-- Witness for `bridge_delivers_in_order_and_ops_routed` at the state
reached by submitting unit 7 and then processing it, with a timed-out
scan outcome and a failed connect outcome surfaced. -/
theorem bridge_delivers_in_order_and_ops_routed_witness :
    (BridgeState.mk [7] [] [7]).completed ++ (BridgeState.mk [7] [] [7]).pending =
      (BridgeState.mk [7] [] [7]).submitted ∧
    (BridgeState.mk [7] [] [7]).completed <+: (BridgeState.mk [7] [] [7]).submitted ∧
    (∀ j : Nat, (BridgeState.mk [7] [] [7]).completed.count j +
        (BridgeState.mk [7] [] [7]).pending.count j =
        (BridgeState.mk [7] [] [7]).submitted.count j) ∧
    (∀ op : BleOp, op ≠ BleOp.disconnect →
        bleOpMechanism op = AsyncMechanism.sharedBridge) ∧
    scanBleAsyncPosts (Except.error "timed out") ≠ [] ∧
    (connectBle "Dev" false [] false "timed out").reactions ≠ [] := by
  have h := bridge_delivers_in_order_and_ops_routed
    (BridgeReachable.step
      (BridgeReachable.step BridgeReachable.init (BridgeStep.submit _ 7))
      (BridgeStep.process _ 7 [] rfl))
  exact ⟨h.1, h.2.1, h.2.2.1, h.2.2.2.1,
    (h.2.2.2.2.1 [] "n" "m" "timed out" (Except.error "timed out")
      (Except.error "timed out")).1,
    h.2.2.2.2.2 "Dev" "timed out" [] false false⟩

/-- C7: the suite provides exactly two transports to the microcontroller
through the graphical interface — USB serial and BLE — plus two standalone
diagnostic scripts, a BLE scanner and a BLE connection tester. -/
theorem two_transports_two_scripts :
    (setup_gui_tabs true).filterMap tabTransport =
      [Transport.usbSerial, Transport.ble] ∧
    standaloneScripts =
      [DiagnosticScript.bleScanner, DiagnosticScript.bleConnectTest] ∧
    standaloneScripts.length = 2 ∧
    scannerIsTarget TARGET_NAME = true ∧
    ESP32_ADDRESS = "B8:F8:62:FB:87:6D" := by
  refine ⟨rfl, rfl, rfl, by decide, rfl⟩

/-- C3 counterexample: when the BLE scan's library call raises, the
handler (`_scan_ble_async` lines 397-398) shows no dialog at all — it only
writes "BLE scan error: …" to the status bar. -/
theorem ble_scan_failure_shows_no_dialog :
    (scanBleOnError "boom").any Reaction.isErrorDialog = false := rfl

/-- C3 (amended): every library-call failure is reported and nothing more —
an error dialog for serial connect/send, BLE inspect/connect/send and file
save, a status-bar message for BLE scan (and for a timed-out BLE connect
future), and a console print for BLE disconnect; no retry or other recovery
path exists (the `Reaction` type enumerates everything any `except` block
does). -/
theorem failure_handling_is_report_only (e : String) :
    ((failureReactions LibCallOp.serialConnect e).any Reaction.isErrorDialog
        = true) ∧
    ((failureReactions LibCallOp.serialSend e).any Reaction.isErrorDialog
        = true) ∧
    ((failureReactions LibCallOp.bleInspect e).any Reaction.isErrorDialog
        = true) ∧
    ((failureReactions LibCallOp.bleConnect e).any Reaction.isErrorDialog
        = true) ∧
    ((failureReactions LibCallOp.bleSend e).any Reaction.isErrorDialog
        = true) ∧
    ((failureReactions LibCallOp.fileSave e).any Reaction.isErrorDialog
        = true) ∧
    failureReactions LibCallOp.bleScan e =
      [Reaction.setStatus ("BLE scan error: " ++ e)] ∧
    connectBleWrapperOnError e =
      [Reaction.setStatus ("BLE connection error: " ++ e)] ∧
    failureReactions LibCallOp.bleDisconnect e =
      [Reaction.consolePrint ("BLE disconnect error: " ++ e)] ∧
    (∀ op : LibCallOp, failureReactions op e ≠ []) := by
  refine ⟨rfl, rfl, rfl, rfl, rfl, rfl, rfl, rfl, rfl, ?_⟩
  intro op
  cases op <;>
    simp [failureReactions, connectSerialOnError, serialSendOnError,
      scanBleOnError, inspectBleOnError, connectBleCoroOnError,
      sendBleOnError, disconnectBleOnError, saveMessagesOnError]

/-- Witness for `failure_handling_is_report_only` at the error text
"boom". -/
theorem failure_handling_is_report_only_witness :
    (failureReactions LibCallOp.serialConnect "boom").any
      Reaction.isErrorDialog = true :=
  (failure_handling_is_report_only "boom").1

/-- C4 counterexample: the `_connect_ble` coroutine body, which runs on
the asyncio worker thread, mutates GUI state directly — it assigns
`self.ble_client` (line 624) and `self.is_connected_ble = True` (line 660)
without going through `root.after`. -/
theorem connect_ble_mutates_state_on_worker :
    WorkerEffect.mk EffectKind.stateMutation false ∈
      workerEffects WorkerCallback.connectBleCoro := by decide

/-- C4 (amended): every display update, status update and dialog performed
by a callback running on a worker thread is routed into the GUI event
loop's queue via `root.after` before being performed; however
`_connect_ble` assigns `self.ble_client` and `self.is_connected_ble`
directly on the worker thread (and two failure paths print directly to
the console). -/
theorem worker_visible_updates_routed_via_after :
    ∀ cb : WorkerCallback, ∀ eff ∈ workerEffects cb,
      (eff.kind = EffectKind.displayUpdate ∨
       eff.kind = EffectKind.statusUpdate ∨
       eff.kind = EffectKind.dialog) →
      eff.viaAfter = true := by decide

/-- Witness for `worker_visible_updates_routed_via_after`: the serial
reader thread's received-line display update. -/
theorem worker_visible_updates_routed_via_after_witness :
    (WorkerEffect.mk EffectKind.displayUpdate true).viaAfter = true :=
  worker_visible_updates_routed_via_after WorkerCallback.readSerialMessages
    (WorkerEffect.mk EffectKind.displayUpdate true) (by decide)
    (Or.inl rfl)

/-- C6: the application state is only the ephemeral in-memory UI state; no
operation writes to persistent storage except the user-initiated Save
Messages operation, which (when the user picks a file) writes the header
plus the current serial and BLE logs to that file, updates only the
status-bar text, and leaves the connection flags, device list and message
logs unchanged; when the user cancels the dialog nothing happens at
all. -/
theorem only_save_messages_persists (bleTab : Bool) (s : GuiState)
    (fn now : String) :
    (∀ op : GuiOp, opWritesStorage op = true ↔ op = GuiOp.saveMessagesOp) ∧
    save_messages bleTab s none now = (s, none) ∧
    (save_messages bleTab s (some fn) now).2 =
      some (FileWrite.mk fn
        (saveFileContent bleTab now s.serial_log s.ble_log)) ∧
    (save_messages bleTab s (some fn) now).1.is_connected_serial =
      s.is_connected_serial ∧
    (save_messages bleTab s (some fn) now).1.is_connected_ble =
      s.is_connected_ble ∧
    (save_messages bleTab s (some fn) now).1.ble_devices = s.ble_devices ∧
    (save_messages bleTab s (some fn) now).1.serial_log = s.serial_log ∧
    (save_messages bleTab s (some fn) now).1.ble_log = s.ble_log ∧
    (save_messages bleTab s (some fn) now).1.status =
      "Messages saved to " ++ fn := by
  refine ⟨?_, rfl, rfl, rfl, rfl, rfl, rfl, rfl, rfl⟩
  intro op; cases op <;> simp [opWritesStorage]

/-- Witness for `only_save_messages_persists` at a concrete state and
file name. -/
theorem only_save_messages_persists_witness :
    (save_messages true (GuiState.mk false false [] "s-log" "b-log" "Ready")
        (some "out.txt") "2025-11-01").2 =
      some (FileWrite.mk "out.txt"
        (saveFileContent true "2025-11-01" "s-log" "b-log")) :=
  (only_save_messages_persists true
    (GuiState.mk false false [] "s-log" "b-log" "Ready")
    "out.txt" "2025-11-01").2.2.1

/-- Helper: the executable substring test agrees with list infixhood. -/
theorem strContains_spec {s pat : String} :
    strContains s pat = true ↔ pat.data <:+: s.data := by
  unfold strContains
  rw [List.any_eq_true]
  constructor
  · rintro ⟨t, ht, hp⟩
    rw [List.mem_tails t s.data] at ht
    exact List.infix_iff_prefix_suffix.mpr
      ⟨t, List.isPrefixOf_iff_prefix.mp hp, ht⟩
  · intro h
    obtain ⟨t, hp, hs⟩ := List.infix_iff_prefix_suffix.mp h
    exact ⟨t, (List.mem_tails _ _).mpr hs,
      List.isPrefixOf_iff_prefix.mpr hp⟩

/-- Helper: a string occurring between two others is found by
`strContains`. -/
theorem strContains_append_middle (a b c : String) :
    strContains (a ++ b ++ c) b = true := by
  rw [strContains_spec]
  exact ⟨a.data, c.data, by simp⟩

/-- C9: `is_connected_ble` becomes `True` exactly when the connection
attempt succeeds, the connected device exposes the target service with the
target characteristic (matched case-insensitively, the characteristic
searched only inside the first matching service, as the `break` in the
source does), and the notification subscription succeeds; on every other
outcome the client is disconnected, an error dialog is posted, and the
flag stays `False`. -/
theorem ble_connect_flag_guard (name err : String)
    (svcs : List GattService) (connectOk notifyOk : Bool) :
    ((connectBle name connectOk svcs notifyOk err).is_connected_ble = true ↔
      (connectOk = true ∧
       (∃ svc : GattService, findTargetService svcs = some svc ∧
          serviceHasTargetChar svc = true) ∧
       notifyOk = true)) ∧
    ((connectBle name connectOk svcs notifyOk err).is_connected_ble = false →
      (connectBle name connectOk svcs notifyOk err).disconnectAttempted
          = true ∧
      (connectBle name connectOk svcs notifyOk err).reactions.any
          Reaction.isErrorDialog = true) := by
  unfold connectBle
  cases connectOk with
  | false => simp [connectBleCoroOnError, Reaction.isErrorDialog]
  | true =>
      rcases hfind : findTargetService svcs with _ | svc
      · simp [hfind, Reaction.isErrorDialog]
      · by_cases hchar : serviceHasTargetChar svc = true
        · cases notifyOk with
          | false =>
              simp [hfind, hchar, connectBleCoroOnError,
                Reaction.isErrorDialog]
          | true => simp [hfind, hchar]
        · simp only [Bool.not_eq_true] at hchar
          simp [hfind, hchar, Reaction.isErrorDialog]

/-- Witness for `ble_connect_flag_guard`: a device exposing no services is
disconnected with an error dialog. -/
theorem ble_connect_flag_guard_witness :
    (connectBle "Dev" true [] true "err").disconnectAttempted = true ∧
    (connectBle "Dev" true [] true "err").reactions.any
      Reaction.isErrorDialog = true :=
  (ble_connect_flag_guard "Dev" "err" [] true true).2 (by decide)

/-- C5: whenever the BLE connection completes successfully the program has
subscribed to notifications on the target characteristic
(`start_notify(CHARACTERISTIC_UUID, self._ble_notification_handler)`, line
658, runs before the flag is set), and every value update pushed by the
peripheral is delivered to `_ble_notification_handler`, which appends
"[BLE] " plus the stripped payload as a received line at the end of the BLE
message log. -/
theorem connected_implies_subscribed_and_notifications_logged
    (name err : String) (svcs : List GattService)
    (connectOk notifyOk : Bool) (log data : String) (ts : Option String) :
    ((connectBle name connectOk svcs notifyOk err).is_connected_ble = true →
      (connectBle name connectOk svcs notifyOk err).subscribed = true) ∧
    logAfterNotification log ts data =
      log ++ formatLogLine ts MsgType.received ("[BLE] " ++ strStrip data) ∧
    strContains (logAfterNotification log ts data)
      ("[BLE] " ++ strStrip data) = true := by
  refine ⟨?_, rfl, ?_⟩
  · intro hconn
    have heq : (connectBle name connectOk svcs notifyOk err).subscribed =
        (connectBle name connectOk svcs notifyOk err).is_connected_ble := by
      unfold connectBle
      cases connectOk with
      | false => simp
      | true =>
          rcases findTargetService svcs with _ | svc
          · simp
          · by_cases hchar : serviceHasTargetChar svc = true
            · cases notifyOk <;> simp [hchar]
            · simp only [Bool.not_eq_true] at hchar
              simp [hchar]
    rw [heq, hconn]
  · show strContains
      (log ++ formatLogLine ts MsgType.received ("[BLE] " ++ strStrip data))
      ("[BLE] " ++ strStrip data) = true
    rcases ts with _ | t
    · show strContains
        (log ++ (msgMark MsgType.received ++ ("[BLE] " ++ strStrip data)
          ++ "\n")) ("[BLE] " ++ strStrip data) = true
      rw [← String.append_assoc, ← String.append_assoc]
      exact strContains_append_middle _ _ _
    · show strContains
        (log ++ (t ++ " " ++ msgMark MsgType.received
          ++ ("[BLE] " ++ strStrip data) ++ "\n"))
        ("[BLE] " ++ strStrip data) = true
      rw [show log ++ (t ++ " " ++ msgMark MsgType.received
            ++ ("[BLE] " ++ strStrip data) ++ "\n")
          = (log ++ (t ++ " " ++ msgMark MsgType.received))
            ++ ("[BLE] " ++ strStrip data) ++ "\n" by
        simp [String.append_assoc]]
      exact strContains_append_middle _ _ _

/-- Witness for
`connected_implies_subscribed_and_notifications_logged`: a device exposing
exactly the expected GATT layout connects and subscribes, and the payload
" ping " is logged stripped. -/
theorem connected_subscribed_witness :
    (connectBle "XIAO-ESP32S3-Test" true
        [GattService.mk SERVICE_UUID
          [GattCharacteristic.mk CHARACTERISTIC_UUID]] true
        "err").subscribed = true ∧
    strContains (logAfterNotification "" none " ping ") "[BLE] ping"
      = true := by
  have h := connected_implies_subscribed_and_notifications_logged
    "XIAO-ESP32S3-Test" "err"
    [GattService.mk SERVICE_UUID [GattCharacteristic.mk CHARACTERISTIC_UUID]]
    true true "" " ping " none
  exact ⟨h.1 (by decide), h.2.2⟩

/-- Helper: membership in a base-shifted enumeration. -/
theorem mem_shifted_enum {l : List BLEDevice} {base i : Nat}
    {d : BLEDevice} :
    (i, d) ∈ l.enum.map (fun p => (p.1 + base, p.2)) ↔
      base ≤ i ∧ l[i - base]? = some d := by
  rw [List.mem_map]
  constructor
  · rintro ⟨⟨j, x⟩, hj, he⟩
    rw [List.mk_mem_enum_iff_getElem?] at hj
    simp only [Prod.mk.injEq] at he
    obtain ⟨h1, h2⟩ := he
    subst h1; subst h2
    exact ⟨Nat.le_add_left _ _, by simpa [Nat.add_sub_cancel] using hj⟩
  · rintro ⟨hle, hget⟩
    refine ⟨(i - base, d), ?_, ?_⟩
    · rw [List.mk_mem_enum_iff_getElem?]; exact hget
    · simp [Nat.sub_add_cancel hle]

/-- Helper: the row of the rebuilt listbox at each index — an ESP32 row in
the first block, the separator (exactly when one is present) between the
blocks, an other-device row past `mapBase`. -/
theorem deviceRows_getElem? (devices : List BLEDevice) (i : Nat) :
    (deviceRows devices)[i]? =
      if i < (espDevices devices).length then
        ((espDevices devices)[i]?).map DeviceRow.target
      else if i < mapBase devices then some DeviceRow.separator
      else ((otherDevices devices)[i - mapBase devices]?).map
        DeviceRow.other := by
  have hA : ((espDevices devices).map DeviceRow.target).length =
      (espDevices devices).length := List.length_map _ _
  have hbase : (espDevices devices).length ≤ mapBase devices := by
    unfold mapBase; rcases hasSeparator devices <;> simp
  have hAS : (((espDevices devices).map DeviceRow.target) ++
      (if hasSeparator devices then [DeviceRow.separator] else [])).length
      = mapBase devices := by
    rw [List.length_append, hA]
    unfold mapBase
    rcases hasSeparator devices <;> simp
  unfold deviceRows
  by_cases h1 : i < (espDevices devices).length
  · rw [if_pos h1]
    rw [List.getElem?_append_left (show i <
        ((((espDevices devices).map DeviceRow.target) ++
          (if hasSeparator devices then [DeviceRow.separator]
           else []))).length by rw [hAS]; omega),
      List.getElem?_append_left (show i <
        ((espDevices devices).map DeviceRow.target).length by
          rw [hA]; exact h1)]
    simp
  · rw [if_neg h1]
    by_cases h2 : i < mapBase devices
    · rw [if_pos h2]
      rw [List.getElem?_append_left (show i <
          ((((espDevices devices).map DeviceRow.target) ++
            (if hasSeparator devices then [DeviceRow.separator]
             else []))).length by rw [hAS]; exact h2),
        List.getElem?_append_right (show
          ((espDevices devices).map DeviceRow.target).length ≤ i by
            rw [hA]; omega)]
      have hsep : hasSeparator devices = true := by
        by_contra hf
        simp only [Bool.not_eq_true] at hf
        unfold mapBase at h2
        rw [hf] at h2
        simp at h2
        omega
      have h0 : i - (espDevices devices).length = 0 := by
        unfold mapBase at h2
        rw [hsep] at h2
        simp at h2
        omega
      simp [hsep, hA, h0]
    · rw [if_neg h2]
      rw [List.getElem?_append_right (show
          ((((espDevices devices).map DeviceRow.target) ++
            (if hasSeparator devices then [DeviceRow.separator]
             else []))).length ≤ i by rw [hAS]; omega),
        hAS]
      simp

/-- Helper: membership in the rebuilt `device_index_map`. -/
theorem device_index_map_mem {devices : List BLEDevice} {i : Nat}
    {d : BLEDevice} :
    (i, d) ∈ device_index_map devices ↔
      ((espDevices devices)[i]? = some d ∨
       (mapBase devices ≤ i ∧
        (otherDevices devices)[i - mapBase devices]? = some d)) := by
  unfold device_index_map
  rw [List.mem_append, List.mk_mem_enum_iff_getElem?, mem_shifted_enum]

/-- Helper: a listbox row is an ESP32 row exactly when the ESP32 group has
that device at that index. -/
theorem deviceRows_target_iff {devices : List BLEDevice} {i : Nat}
    {d : BLEDevice} :
    (deviceRows devices)[i]? = some (DeviceRow.target d) ↔
      (espDevices devices)[i]? = some d := by
  rw [deviceRows_getElem?]
  by_cases h1 : i < (espDevices devices).length
  · rw [if_pos h1]
    cases hv : (espDevices devices)[i]? <;> simp [hv]
  · rw [if_neg h1,
      List.getElem?_eq_none (Nat.le_of_not_lt h1)]
    by_cases h2 : i < mapBase devices
    · rw [if_pos h2]; simp
    · rw [if_neg h2]
      cases hv : (otherDevices devices)[i - mapBase devices]? <;> simp [hv]

/-- Helper: a listbox row is an other-device row exactly when the other
group has that device at that index past `mapBase`. -/
theorem deviceRows_other_iff {devices : List BLEDevice} {i : Nat}
    {d : BLEDevice} :
    (deviceRows devices)[i]? = some (DeviceRow.other d) ↔
      (mapBase devices ≤ i ∧
       (otherDevices devices)[i - mapBase devices]? = some d) := by
  have hbase : (espDevices devices).length ≤ mapBase devices := by
    unfold mapBase; rcases hasSeparator devices <;> simp
  rw [deviceRows_getElem?]
  by_cases h1 : i < (espDevices devices).length
  · rw [if_pos h1]
    have : ¬ mapBase devices ≤ i := by omega
    cases hv : (espDevices devices)[i]? <;> simp [hv, this]
  · rw [if_neg h1]
    by_cases h2 : i < mapBase devices
    · rw [if_pos h2]
      have : ¬ mapBase devices ≤ i := by omega
      simp [this]
    · rw [if_neg h2]
      have hle : mapBase devices ≤ i := Nat.le_of_not_lt h2
      cases hv : (otherDevices devices)[i - mapBase devices]? <;>
        simp [hv, hle]

/-- C8: after every scan-result update, `device_index_map` maps an index
to a device exactly when that listbox row displays that device; the
separator row is never mapped; under distinct scan results every scanned
device appears at exactly one mapped index; and every row showing a
XIAO/ESP32-named device precedes every row showing another device. -/
theorem device_index_map_invariant (devices : List BLEDevice)
    (hnd : devices.Nodup) :
    (∀ i : Nat, ∀ d : BLEDevice,
       ((i, d) ∈ device_index_map devices ↔
        (deviceRows devices)[i]? = some (DeviceRow.target d) ∨
        (deviceRows devices)[i]? = some (DeviceRow.other d))) ∧
    (∀ i : Nat, (deviceRows devices)[i]? = some DeviceRow.separator →
       ∀ d : BLEDevice, (i, d) ∉ device_index_map devices) ∧
    (∀ d ∈ devices, ∃! i : Nat, (i, d) ∈ device_index_map devices) ∧
    (∀ i j : Nat, ∀ d e : BLEDevice,
       (deviceRows devices)[i]? = some (DeviceRow.target d) →
       (deviceRows devices)[j]? = some (DeviceRow.other e) → i < j) := by
  have hbase : (espDevices devices).length ≤ mapBase devices := by
    unfold mapBase; rcases hasSeparator devices <;> simp
  have hiff : ∀ i : Nat, ∀ d : BLEDevice,
      ((i, d) ∈ device_index_map devices ↔
       (deviceRows devices)[i]? = some (DeviceRow.target d) ∨
       (deviceRows devices)[i]? = some (DeviceRow.other d)) := by
    intro i d
    rw [device_index_map_mem, deviceRows_target_iff, deviceRows_other_iff]
  refine ⟨hiff, ?_, ?_, ?_⟩
  · intro i hsep d hmem
    rcases (hiff i d).mp hmem with h | h <;> rw [hsep] at h <;>
      exact DeviceRow.noConfusion (Option.some.inj h)
  · intro d hd
    by_cases ht : isTargetDevice d = true
    · have hde : d ∈ espDevices devices :=
        List.mem_filter.mpr ⟨hd, ht⟩
      obtain ⟨k, hk, hke⟩ := List.getElem_of_mem hde
      refine ⟨k, ?_, ?_⟩
      · show (k, d) ∈ device_index_map devices
        rw [device_index_map_mem]
        exact Or.inl (by simp [List.getElem?_eq_getElem, hk, hke])
      · intro j hj
        have hj' : (j, d) ∈ device_index_map devices := hj
        rw [device_index_map_mem] at hj'
        have hkmem : (espDevices devices)[k]? = some d := by
          simp [List.getElem?_eq_getElem, hk, hke]
        rcases hj' with hj | ⟨hle, hj⟩
        · exact List.getElem?_inj
            (List.getElem?_eq_some.mp hj).1
            (hnd.filter _) (hj.trans hkmem.symm)
        · exfalso
          have : d ∈ otherDevices devices := List.getElem?_mem hj
          have := (List.mem_filter.mp this).2
          simp [ht] at this
    · simp only [Bool.not_eq_true] at ht
      have hde : d ∈ otherDevices devices :=
        List.mem_filter.mpr ⟨hd, by simp [ht]⟩
      obtain ⟨k, hk, hke⟩ := List.getElem_of_mem hde
      have hkmem : (otherDevices devices)[k]? = some d := by
        simp [List.getElem?_eq_getElem, hk, hke]
      refine ⟨k + mapBase devices, ?_, ?_⟩
      · show (k + mapBase devices, d) ∈ device_index_map devices
        rw [device_index_map_mem]
        exact Or.inr ⟨Nat.le_add_left _ _, by
          simpa [Nat.add_sub_cancel] using hkmem⟩
      · intro j hj
        have hj' : (j, d) ∈ device_index_map devices := hj
        rw [device_index_map_mem] at hj'
        rcases hj' with hj | ⟨hle, hj⟩
        · exfalso
          have : d ∈ espDevices devices := List.getElem?_mem hj
          have := (List.mem_filter.mp this).2
          simp [ht] at this
        · have : j - mapBase devices = k := List.getElem?_inj
            (List.getElem?_eq_some.mp hj).1
            (hnd.filter _) (hj.trans hkmem.symm)
          omega
  · intro i j d e hi hj
    have h1 : i < (espDevices devices).length :=
      (List.getElem?_eq_some.mp (deviceRows_target_iff.mp hi)).1
    have h2 : mapBase devices ≤ j := (deviceRows_other_iff.mp hj).1
    omega

/-- Witness for `device_index_map_invariant` at a two-device scan: the
XIAO device is mapped at row 0, nothing is mapped at the separator row 1,
and the other device is mapped at row 2. -/
theorem device_index_map_invariant_witness :
    ((0, BLEDevice.mk (some "XIAO-ESP32S3-Test") "AA") ∈
      device_index_map
        [BLEDevice.mk (some "XIAO-ESP32S3-Test") "AA",
         BLEDevice.mk (some "TV") "BB"]) ∧
    ((2, BLEDevice.mk (some "TV") "BB") ∈
      device_index_map
        [BLEDevice.mk (some "XIAO-ESP32S3-Test") "AA",
         BLEDevice.mk (some "TV") "BB"]) ∧
    (∀ d : BLEDevice, (1, d) ∉
      device_index_map
        [BLEDevice.mk (some "XIAO-ESP32S3-Test") "AA",
         BLEDevice.mk (some "TV") "BB"]) := by
  have h := device_index_map_invariant
    [BLEDevice.mk (some "XIAO-ESP32S3-Test") "AA",
     BLEDevice.mk (some "TV") "BB"] (by decide)
  refine ⟨?_, ?_, h.2.1 1 (by decide)⟩
  · exact (h.1 0 (BLEDevice.mk (some "XIAO-ESP32S3-Test") "AA")).mpr
      (Or.inl (by decide))
  · exact (h.1 2 (BLEDevice.mk (some "TV") "BB")).mpr
      (Or.inr (by decide))

end ESP32
